import Mathlib

/-!
Verification of the completion-request client of the Apna Ghar chat
applications.  The repository has two variants:

* `main.py` : `ask_openrouter(api_key, messages)` — builds one JSON payload
  from the conversation and runs a retry loop (`retry, max_retries, base =
  0, 4, 1.0`; `while retry <= max_retries`) around `requests.post`.
  HTTP 200 extracts `j["choices"][0]["message"]["content"]`; 5xx, timeout
  and connection errors sleep `base * 2 ** retry` and retry; any other
  status returns `f"API Error ({status}): {text[:500]}"`; any other
  exception (including JSON decode failures and KeyError/IndexError during
  extraction) is caught by `except Exception` and returned as
  `f"Unexpected error: {e}"`; loop exhaustion returns the max-retries
  message.

* `main2.py` : `ask_api(query)` — a single `requests.post` with
  `raise_for_status()`, catching `requests.exceptions.RequestException`
  and `KeyError` only; there is no retry loop.

The embedding below models one outbound call.  The network is an oracle
`trace : Nat → AttemptOutcome` giving the outcome of the attempt made at
each value of the retry counter.  Observable effects are logged: the
payload of every request actually sent, and every `time.sleep` delay
(in units of the base delay; `base = 1.0` in the source, so the recorded
delay for counter value `r` is `2 ^ r`).  Python exceptions are explicit:
the client returns `Except PyExn Json`, where `.error` means an exception
escaped the client to its caller.  Exception message strings abstract
Python's `str(e)`.
-/

/-- JSON values, as far as the client inspects them: strings, arrays,
objects (association lists, first binding wins, as for unique-key dicts)
and null. -/
inductive Json where
  | str (s : String)
  | arr (xs : List Json)
  | obj (fields : List (String × Json))
  | null

/-- Python exceptions that the modelled code can raise or observe.
`other` stands for any further exception class, carrying `str(e)`. -/
inductive PyExn where
  | timeout
  | connectionError
  | keyError (k : String)
  | indexError
  | typeError
  | other (msg : String)
deriving DecidableEq

/-- Rendering of `str(e)` for the exceptions produced during extraction;
`str(KeyError(k))` is the repr of the key, `str(IndexError(...))` is the
usual message.  The exact texts are abstractions. -/
def pyExnMsg : PyExn → String
  | .timeout => "timed out"
  | .connectionError => "connection error"
  | .keyError k => "\x27" ++ k ++ "\x27"
  | .indexError => "list index out of range"
  | .typeError => "type error"
  | .other m => m

/-- Python subscription `j[k]` for a string key: a dict yields the value
bound to the key or raises `KeyError`; any other value raises
`TypeError`. -/
def pyGetKey (j : Json) (k : String) : Except PyExn Json :=
  match j with
  | .obj fields =>
      match fields.lookup k with
      | some v => .ok v
      | none => .error (.keyError k)
  | _ => .error .typeError

/-- Python subscription `j[i]` for an integer index: a list yields the
element or raises `IndexError`; any other value raises `TypeError`. -/
def pyGetIndex (j : Json) (i : Nat) : Except PyExn Json :=
  match j with
  | .arr xs =>
      match xs.get? i with
      | some v => .ok v
      | none => .error .indexError
  | _ => .error .typeError

/-- The extraction `j["choices"][0]["message"]["content"]` performed on a
decoded HTTP-200 body (`main.py` line 125, `main2.py` line 179). -/
def extractContent (j : Json) : Except PyExn Json := do
  let choices ← pyGetKey j "choices"
  let first ← pyGetIndex choices 0
  let msg ← pyGetKey first "message"
  pyGetKey msg "content"

/-- Python string slicing `s[:n]`: the first `n` characters of `s` (all
of `s` when it is shorter), used for the `resp.text[:500]` body prefix of
`main.py` line 134. -/
def pySlice (s : String) (n : Nat) : String := ⟨s.data.take n⟩

/-- Outcome of one `requests.post` call, as provided by the network
oracle:

* `response status text body` — an HTTP response arrived; `body` is the
  result of `resp.json()` (`.error m` models the decode raising, with
  `m` the message of the raised exception);
* `timeout` — `requests.exceptions.Timeout` was raised;
* `connectionError` — `requests.exceptions.ConnectionError` was raised;
* `raised isReqExc msg` — some other exception was raised; `isReqExc`
  records whether it is a `requests.exceptions.RequestException`
  (relevant only to `main2.py`, whose first handler catches exactly
  that class). -/
inductive AttemptOutcome where
  | response (status : Nat) (text : String) (body : Except String Json)
  | timeout
  | connectionError
  | raised (isReqExc : Bool) (msg : String)

/-- An incoming conversation message: the session dicts always carry a
role and a content entry (`main.py` lines 86–87, 195, 199). -/
structure InMsg where
  role : String
  content : String
deriving DecidableEq

/-- The outgoing request body of `main.py` lines 110–115: fixed model
name, the conversation reduced to role/content pairs, and the fixed
generation parameters (temperature `0.7`, stored as tenths, and
`max_tokens` 600). -/
structure Payload where
  model : String
  messages : List (String × String)
  temperatureTenths : Nat
  maxTokens : Nat
deriving DecidableEq

/-- Payload construction from the conversation (`main.py` lines 110–115):
`[{"role": m["role"], "content": m["content"]} for m in messages]`. -/
def mkPayload (msgs : List InMsg) : Payload :=
  { model := "openai/gpt-3.5-turbo"
  , messages := msgs.map (fun m => (m.role, m.content))
  , temperatureTenths := 7
  , maxTokens := 600 }

/-- Observable effects of one client call: the payloads of the HTTP
requests actually sent, in order, and the `time.sleep` delays performed,
in order (in base-delay units). -/
structure RunLog where
  requests : List Payload
  sleeps : List Nat
deriving DecidableEq

/-- `max_retries` of `main.py` line 118. -/
def maxRetries : Nat := 4

/-- Truthiness of the api key value: `not api_key` holds for an absent
key (`None`) and for the empty string. -/
def pyFalsy : Option String → Bool
  | none => true
  | some s => s.isEmpty

/-- Retryable attempt outcomes: HTTP 5xx, timeout, connection error
(`main.py` lines 126–131 and 135–139). -/
def isRetryable : AttemptOutcome → Bool
  | .response status _ _ => decide (500 ≤ status ∧ status < 600)
  | .timeout => true
  | .connectionError => true
  | .raised _ _ => false

/-- The `while retry <= max_retries` loop of `main.py` lines 119–142.
`fuel` is the number of loop iterations the guard still allows, kept
equal to `maxRetries + 1 - retry` at every call (the entry call passes
`maxRetries + 1` and `0`; the recursive call decrements one and
increments the other), so `fuel = 0` is exactly the guard
`retry ≤ max_retries` failing, upon which the max-retries message is
returned (line 142).  Each iteration sends the request (logged), then
classifies the outcome as in the source. -/
def askLoop (trace : Nat → AttemptOutcome) (payload : Payload) :
    Nat → Nat → RunLog → Except PyExn Json × RunLog
  | 0, _, log =>
      (.ok (.str "Error: Max retries exceeded. Please try again in a moment."), log)
  | fuel + 1, retry, log =>
      let log1 : RunLog := ⟨log.requests ++ [payload], log.sleeps⟩
      match trace retry with
      | .response status text body =>
          if status = 200 then
            match body with
            | .error m => (.ok (.str ("Unexpected error: " ++ m)), log1)
            | .ok j =>
                match extractContent j with
                | .ok v => (.ok v, log1)
                | .error e => (.ok (.str ("Unexpected error: " ++ pyExnMsg e)), log1)
          else if 500 ≤ status ∧ status < 600 then
            askLoop trace payload fuel (retry + 1)
              ⟨log1.requests, log1.sleeps ++ [2 ^ retry]⟩
          else
            (.ok (.str ("API Error (" ++ toString status ++ "): " ++ pySlice text 500)), log1)
      | .timeout =>
          askLoop trace payload fuel (retry + 1)
            ⟨log1.requests, log1.sleeps ++ [2 ^ retry]⟩
      | .connectionError =>
          askLoop trace payload fuel (retry + 1)
            ⟨log1.requests, log1.sleeps ++ [2 ^ retry]⟩
      | .raised _ m => (.ok (.str ("Unexpected error: " ++ m)), log1)

/-- `ask_openrouter` of `main.py` lines 97–142: a falsy key returns the
missing-key message with no request; otherwise the payload is built once
and the retry loop runs from counter 0. -/
def ask_openrouter (apiKey : Option String) (messages : List InMsg)
    (trace : Nat → AttemptOutcome) : Except PyExn Json × RunLog :=
  if pyFalsy apiKey then
    (.ok (.str "Error: Missing OpenRouter API key. Add it via the API Settings panel."), ⟨[], []⟩)
  else
    askLoop trace (mkPayload messages) (maxRetries + 1) 0 ⟨[], []⟩

/-- `ask_api` of `main2.py` lines 159–185, returning the result together
with the `"messages"` bodies of the HTTP requests performed, in order
(empty, or the single `[{"role": "user", "content": query}]`).  The single
`requests.post` is guarded by `except requests.exceptions.RequestException`
and `except KeyError` only:

* timeout / connection error / any other `RequestException` → the
  connection-trouble message;
* `raise_for_status()` raises `HTTPError` (a `RequestException`) for
  every status in [400, 600);
* an undecodable body raises `requests.exceptions.JSONDecodeError`,
  a `RequestException` in the pinned requests version;
* a `KeyError` during extraction → the unexpected-response message;
* any other exception (`IndexError`, `TypeError`, or a
  non-`RequestException` raise from `post`) is caught by neither handler
  and escapes to the caller (modelled as `.error`). -/
def ask_api (apiKey : Option String) (query : String)
    (outcome : AttemptOutcome) : Except PyExn Json × List (List (String × String)) :=
  if pyFalsy apiKey then
    (.ok (.str "Please set your OpenRouter API key in Streamlit secrets to enable AI responses."), [])
  else
    let sent := [[("user", query)]]
    match outcome with
    | .timeout =>
        (.ok (.str "Sorry, I\x27m having trouble connecting to the AI. Please try again later."), sent)
    | .connectionError =>
        (.ok (.str "Sorry, I\x27m having trouble connecting to the AI. Please try again later."), sent)
    | .raised isReqExc m =>
        if isReqExc then
          (.ok (.str "Sorry, I\x27m having trouble connecting to the AI. Please try again later."), sent)
        else
          (.error (.other m), sent)
    | .response status _text body =>
        if 400 ≤ status ∧ status < 600 then
          (.ok (.str "Sorry, I\x27m having trouble connecting to the AI. Please try again later."), sent)
        else
          match body with
          | .error _ =>
              (.ok (.str "Sorry, I\x27m having trouble connecting to the AI. Please try again later."), sent)
          | .ok j =>
              match extractContent j with
              | .ok v => (.ok v, sent)
              | .error (.keyError _) =>
                  (.ok (.str "Sorry, I received an unexpected response from the AI."), sent)
              | .error e => (.error e, sent)

/-- A concrete well-formed completion body,
`{"choices": [{"message": {"content": "Hi there!"}}]}`, used to
instantiate success scenarios. -/
def okBody : Json :=
  .obj [("choices", .arr [.obj [("message", .obj [("content", .str "Hi there!")])]])]

/-- A concrete degenerate completion body, `{"choices": []}`: valid JSON,
but the choices list is empty. -/
def emptyChoicesBody : Json := .obj [("choices", .arr [])]

/-! ### Helper lemmas about the retry loop -/

/-- One loop iteration on a retryable outcome sends the request, sleeps
`2 ^ retry`, and continues with the counter incremented. -/
theorem askLoop_step_retryable (trace : Nat → AttemptOutcome) (p : Payload)
    (fuel retry : Nat) (log : RunLog) (h : isRetryable (trace retry) = true) :
    askLoop trace p (fuel + 1) retry log
      = askLoop trace p fuel (retry + 1)
          ⟨log.requests ++ [p], log.sleeps ++ [2 ^ retry]⟩ := by
  cases htr : trace retry with
  | response s t b =>
      have hs : 500 ≤ s ∧ s < 600 := by simpa [isRetryable, htr] using h
      have hs200 : ¬ s = 200 := by omega
      simp [askLoop, htr, hs200, hs]
  | timeout => simp [askLoop, htr]
  | connectionError => simp [askLoop, htr]
  | raised b m => simp [isRetryable, htr] at h

/-- One loop iteration on an HTTP 200 whose body decodes and extracts
returns the extracted value after logging the single request. -/
theorem askLoop_step_ok (trace : Nat → AttemptOutcome) (p : Payload)
    (fuel retry : Nat) (log : RunLog) (t : String) (j : Json) (v : Json)
    (htr : trace retry = .response 200 t (.ok j))
    (hext : extractContent j = .ok v) :
    askLoop trace p (fuel + 1) retry log
      = (.ok v, ⟨log.requests ++ [p], log.sleeps⟩) := by
  simp [askLoop, htr, hext]

/-- A run never shrinks the logs: final request and sleep counts bound
the initial ones. -/
theorem askLoop_log_mono (trace : Nat → AttemptOutcome) (p : Payload) :
    ∀ fuel retry log,
      log.requests.length ≤ (askLoop trace p fuel retry log).2.requests.length
      ∧ log.sleeps.length ≤ (askLoop trace p fuel retry log).2.sleeps.length := by
  intro fuel
  induction fuel with
  | zero => intro retry log; exact ⟨le_rfl, le_rfl⟩
  | succ n ih =>
      intro retry log
      cases htr : trace retry with
      | response s t b =>
          by_cases h200 : s = 200
          · cases b with
            | error m => simp [askLoop, htr, h200]
            | ok j =>
                cases hext : extractContent j with
                | ok v => simp [askLoop, htr, h200, hext]
                | error e => simp [askLoop, htr, h200, hext]
          · by_cases h5 : 500 ≤ s ∧ s < 600
            · have := ih (retry + 1)
                ⟨log.requests ++ [p], log.sleeps ++ [2 ^ retry]⟩
              simp [askLoop, htr, h200, h5] at this ⊢
              omega
            · simp [askLoop, htr, h200, h5]
      | timeout =>
          have := ih (retry + 1) ⟨log.requests ++ [p], log.sleeps ++ [2 ^ retry]⟩
          simp [askLoop, htr] at this ⊢
          omega
      | connectionError =>
          have := ih (retry + 1) ⟨log.requests ++ [p], log.sleeps ++ [2 ^ retry]⟩
          simp [askLoop, htr] at this ⊢
          omega
      | raised b m => simp [askLoop, htr]

/-- As long as the guard admits another iteration, at least one more
request is sent. -/
theorem askLoop_sends (trace : Nat → AttemptOutcome) (p : Payload)
    (fuel retry : Nat) (log : RunLog) :
    log.requests.length + 1
      ≤ (askLoop trace p (fuel + 1) retry log).2.requests.length := by
  cases htr : trace retry with
  | response s t b =>
      by_cases h200 : s = 200
      · cases b with
        | error m => simp [askLoop, htr, h200]
        | ok j =>
            cases hext : extractContent j with
            | ok v => simp [askLoop, htr, h200, hext]
            | error e => simp [askLoop, htr, h200, hext]
      · by_cases h5 : 500 ≤ s ∧ s < 600
        · have := (askLoop_log_mono trace p fuel (retry + 1)
            ⟨log.requests ++ [p], log.sleeps ++ [2 ^ retry]⟩).1
          simp [askLoop, htr, h200, h5] at this ⊢
          omega
        · simp [askLoop, htr, h200, h5]
  | timeout =>
      have := (askLoop_log_mono trace p fuel (retry + 1)
        ⟨log.requests ++ [p], log.sleeps ++ [2 ^ retry]⟩).1
      simp [askLoop, htr] at this ⊢
      omega
  | connectionError =>
      have := (askLoop_log_mono trace p fuel (retry + 1)
        ⟨log.requests ++ [p], log.sleeps ++ [2 ^ retry]⟩).1
      simp [askLoop, htr] at this ⊢
      omega
  | raised b m => simp [askLoop, htr]

/-- Every request sent during a run carries the one payload the loop was
given: the request body is never rebuilt or changed between attempts. -/
theorem askLoop_requests_eq (trace : Nat → AttemptOutcome) (p : Payload) :
    ∀ fuel retry log, (∀ q ∈ log.requests, q = p) →
      ∀ q ∈ (askLoop trace p fuel retry log).2.requests, q = p := by
  intro fuel
  induction fuel with
  | zero => intro retry log hlog; exact hlog
  | succ n ih =>
      intro retry log hlog
      have hlog1 : ∀ q ∈ log.requests ++ [p], q = p := by
        intro q hq
        rcases List.mem_append.mp hq with h | h
        · exact hlog q h
        · simpa using h
      cases htr : trace retry with
      | response s t b =>
          by_cases h200 : s = 200
          · cases b with
            | error m => simpa [askLoop, htr, h200] using hlog1
            | ok j =>
                cases hext : extractContent j with
                | ok v => simpa [askLoop, htr, h200, hext] using hlog1
                | error e => simpa [askLoop, htr, h200, hext] using hlog1
          · by_cases h5 : 500 ≤ s ∧ s < 600
            · have := ih (retry + 1)
                ⟨log.requests ++ [p], log.sleeps ++ [2 ^ retry]⟩ hlog1
              simpa [askLoop, htr, h200, h5] using this
            · simpa [askLoop, htr, h200, h5] using hlog1
      | timeout =>
          have := ih (retry + 1)
            ⟨log.requests ++ [p], log.sleeps ++ [2 ^ retry]⟩ hlog1
          simpa [askLoop, htr] using this
      | connectionError =>
          have := ih (retry + 1)
            ⟨log.requests ++ [p], log.sleeps ++ [2 ^ retry]⟩ hlog1
          simpa [askLoop, htr] using this
      | raised b m => simpa [askLoop, htr] using hlog1

/-- The loop resolves every outcome to a returned value: no branch of its
body produces a raised exception. -/
theorem askLoop_total (trace : Nat → AttemptOutcome) (p : Payload) :
    ∀ fuel retry log, ∃ v, (askLoop trace p fuel retry log).1 = .ok v := by
  intro fuel
  induction fuel with
  | zero => intro retry log; exact ⟨_, rfl⟩
  | succ n ih =>
      intro retry log
      cases htr : trace retry with
      | response s t b =>
          by_cases h200 : s = 200
          · cases b with
            | error m =>
                exact ⟨.str ("Unexpected error: " ++ m), by simp [askLoop, htr, h200]⟩
            | ok j =>
                cases hext : extractContent j with
                | ok v => exact ⟨v, by simp [askLoop, htr, h200, hext]⟩
                | error e =>
                    exact ⟨.str ("Unexpected error: " ++ pyExnMsg e),
                      by simp [askLoop, htr, h200, hext]⟩
          · by_cases h5 : 500 ≤ s ∧ s < 600
            · obtain ⟨v, hv⟩ := ih (retry + 1)
                ⟨log.requests ++ [p], log.sleeps ++ [2 ^ retry]⟩
              exact ⟨v, by simpa [askLoop, htr, h200, h5] using hv⟩
            · exact ⟨.str ("API Error (" ++ toString s ++ "): " ++ pySlice t 500),
                by simp [askLoop, htr, h200, h5]⟩
      | timeout =>
          obtain ⟨v, hv⟩ := ih (retry + 1)
            ⟨log.requests ++ [p], log.sleeps ++ [2 ^ retry]⟩
          exact ⟨v, by simpa [askLoop, htr] using hv⟩
      | connectionError =>
          obtain ⟨v, hv⟩ := ih (retry + 1)
            ⟨log.requests ++ [p], log.sleeps ++ [2 ^ retry]⟩
          exact ⟨v, by simpa [askLoop, htr] using hv⟩
      | raised b m =>
          exact ⟨.str ("Unexpected error: " ++ m), by simp [askLoop, htr]⟩

/-! ### Claim theorems -/

/-- C1: when the endpoint returns HTTP 500 on every attempt,
`ask_openrouter` returns the max-retries-exceeded message and sends
exactly `max_retries + 1 = 5` HTTP requests, no more. -/
theorem C1_all_500_retries_exhausted
    (key : Option String) (msgs : List InMsg) (trace : Nat → AttemptOutcome)
    (hkey : pyFalsy key = false)
    (h500 : ∀ i, ∃ t b, trace i = .response 500 t b) :
    (ask_openrouter key msgs trace).1
        = .ok (.str "Error: Max retries exceeded. Please try again in a moment.")
    ∧ (ask_openrouter key msgs trace).2.requests.length = 5 := by
  have hr : ∀ i, isRetryable (trace i) = true := by
    intro i
    obtain ⟨t, b, h⟩ := h500 i
    simp [isRetryable, h]
  have hrun : ask_openrouter key msgs trace
      = askLoop trace (mkPayload msgs) (maxRetries + 1) 0 ⟨[], []⟩ := by
    simp [ask_openrouter, hkey]
  rw [hrun, show maxRetries + 1 = 4 + 1 from rfl,
    askLoop_step_retryable trace (mkPayload msgs) 4 0 _ (hr 0),
    askLoop_step_retryable trace (mkPayload msgs) 3 1 _ (hr 1),
    askLoop_step_retryable trace (mkPayload msgs) 2 2 _ (hr 2),
    askLoop_step_retryable trace (mkPayload msgs) 1 3 _ (hr 3),
    askLoop_step_retryable trace (mkPayload msgs) 0 4 _ (hr 4)]
  simp [askLoop]

/-- Closed instance of C1: a trace that always answers HTTP 500. -/
theorem C1_witness :
    (ask_openrouter (some "sk-or-key") []
        (fun _ => .response 500 "server busy" (.error "bad json"))).1
        = .ok (.str "Error: Max retries exceeded. Please try again in a moment.")
    ∧ (ask_openrouter (some "sk-or-key") []
        (fun _ => .response 500 "server busy" (.error "bad json"))).2.requests.length = 5 :=
  C1_all_500_retries_exhausted (some "sk-or-key") []
    (fun _ => .response 500 "server busy" (.error "bad json"))
    rfl (fun _ => ⟨"server busy", .error "bad json", rfl⟩)

/-- C3: a missing or empty API key makes both clients return their
missing-key message immediately, with zero HTTP requests sent. -/
theorem C3_missing_key_no_request
    (key : Option String) (msgs : List InMsg) (trace : Nat → AttemptOutcome)
    (query : String) (outcome : AttemptOutcome)
    (hkey : pyFalsy key = true) :
    (ask_openrouter key msgs trace).1
        = .ok (.str "Error: Missing OpenRouter API key. Add it via the API Settings panel.")
    ∧ (ask_openrouter key msgs trace).2.requests = []
    ∧ (ask_api key query outcome).1
        = .ok (.str "Please set your OpenRouter API key in Streamlit secrets to enable AI responses.")
    ∧ (ask_api key query outcome).2 = [] := by
  refine ⟨?_, ?_, ?_, ?_⟩ <;> simp [ask_openrouter, ask_api, hkey]

/-- Closed instance of C3: the absent key, an arbitrary conversation and
an arbitrary network outcome. -/
theorem C3_witness :
    (ask_openrouter none [⟨"user", "Hello"⟩] (fun _ => .timeout)).1
        = .ok (.str "Error: Missing OpenRouter API key. Add it via the API Settings panel.")
    ∧ (ask_openrouter none [⟨"user", "Hello"⟩] (fun _ => .timeout)).2.requests = []
    ∧ (ask_api none "Hello" .timeout).1
        = .ok (.str "Please set your OpenRouter API key in Streamlit secrets to enable AI responses.")
    ∧ (ask_api none "Hello" .timeout).2 = [] :=
  C3_missing_key_no_request none [⟨"user", "Hello"⟩] (fun _ => .timeout) "Hello" .timeout rfl

/-- C4: a response whose status is neither 200 nor 5xx makes
`ask_openrouter` return the API-error message carrying the status and the
first 500 characters of the body, after exactly one request, with no
retry and no sleep. -/
theorem C4_client_error_no_retry
    (key : Option String) (msgs : List InMsg) (trace : Nat → AttemptOutcome)
    (status : Nat) (text : String) (body : Except String Json)
    (hkey : pyFalsy key = false)
    (htr : trace 0 = .response status text body)
    (h200 : status ≠ 200) (h5xx : ¬ (500 ≤ status ∧ status < 600)) :
    (ask_openrouter key msgs trace).1
        = .ok (.str ("API Error (" ++ toString status ++ "): " ++ pySlice text 500))
    ∧ (ask_openrouter key msgs trace).2.requests.length = 1
    ∧ (ask_openrouter key msgs trace).2.sleeps = [] := by
  have hrun : ask_openrouter key msgs trace
      = askLoop trace (mkPayload msgs) (maxRetries + 1) 0 ⟨[], []⟩ := by
    simp [ask_openrouter, hkey]
  rw [hrun, show maxRetries + 1 = 4 + 1 from rfl]
  refine ⟨?_, ?_, ?_⟩ <;> simp [askLoop, htr, h200, h5xx]

/-- Closed instance of C4: an HTTP 404 outcome. -/
theorem C4_witness :
    (ask_openrouter (some "sk-or-key") [] (fun _ => .response 404 "not found" (.error "x"))).1
        = .ok (.str ("API Error (" ++ toString 404 ++ "): " ++ pySlice "not found" 500))
    ∧ (ask_openrouter (some "sk-or-key") []
        (fun _ => .response 404 "not found" (.error "x"))).2.requests.length = 1
    ∧ (ask_openrouter (some "sk-or-key") []
        (fun _ => .response 404 "not found" (.error "x"))).2.sleeps = [] :=
  C4_client_error_no_retry (some "sk-or-key") [] (fun _ => .response 404 "not found" (.error "x"))
    404 "not found" (.error "x") rfl rfl (by omega) (by omega)

/-- C2: with `k` HTTP 500 responses followed by a 200 whose body extracts
to a success text, and `k` within the configured maximum, the client
sleeps `base * 2 ^ i` (base = 1) before the retry after failed attempt
`i` — successive delays 1, 2, 4, 8 — and returns the success text, having
sent `k + 1` requests. -/
theorem C2_backoff_doubles_then_success
    (key : Option String) (msgs : List InMsg) (trace : Nat → AttemptOutcome)
    (k : Nat) (t : String) (j : Json) (s : String)
    (hkey : pyFalsy key = false) (hk : k ≤ maxRetries)
    (h500 : ∀ i, i < k → ∃ t2 b2, trace i = .response 500 t2 b2)
    (hok : trace k = .response 200 t (.ok j))
    (hext : extractContent j = .ok (.str s)) :
    (ask_openrouter key msgs trace).1 = .ok (.str s)
    ∧ (ask_openrouter key msgs trace).2.sleeps
        = (List.range k).map (fun i => 2 ^ i)
    ∧ (ask_openrouter key msgs trace).2.requests.length = k + 1 := by
  have hr : ∀ i, i < k → isRetryable (trace i) = true := by
    intro i hi
    obtain ⟨t2, b2, h⟩ := h500 i hi
    simp [isRetryable, h]
  have hrun : ask_openrouter key msgs trace
      = askLoop trace (mkPayload msgs) (4 + 1) 0 ⟨[], []⟩ := by
    simp [ask_openrouter, hkey, maxRetries]
  have hk4 : k ≤ 4 := by simpa [maxRetries] using hk
  rw [hrun]
  interval_cases k
  · rw [askLoop_step_ok trace (mkPayload msgs) 4 0 _ t j (.str s) hok hext]
    refine ⟨rfl, by simp, by simp⟩
  · rw [askLoop_step_retryable trace (mkPayload msgs) 4 0 _ (hr 0 (by omega)),
      askLoop_step_ok trace (mkPayload msgs) 3 1 _ t j (.str s) hok hext]
    refine ⟨rfl, by simp [List.range_succ], by simp⟩
  · rw [askLoop_step_retryable trace (mkPayload msgs) 4 0 _ (hr 0 (by omega)),
      askLoop_step_retryable trace (mkPayload msgs) 3 1 _ (hr 1 (by omega)),
      askLoop_step_ok trace (mkPayload msgs) 2 2 _ t j (.str s) hok hext]
    refine ⟨rfl, ?_, by simp⟩
    simp [List.range_succ]
  · rw [askLoop_step_retryable trace (mkPayload msgs) 4 0 _ (hr 0 (by omega)),
      askLoop_step_retryable trace (mkPayload msgs) 3 1 _ (hr 1 (by omega)),
      askLoop_step_retryable trace (mkPayload msgs) 2 2 _ (hr 2 (by omega)),
      askLoop_step_ok trace (mkPayload msgs) 1 3 _ t j (.str s) hok hext]
    refine ⟨rfl, ?_, by simp⟩
    simp [List.range_succ]
  · rw [askLoop_step_retryable trace (mkPayload msgs) 4 0 _ (hr 0 (by omega)),
      askLoop_step_retryable trace (mkPayload msgs) 3 1 _ (hr 1 (by omega)),
      askLoop_step_retryable trace (mkPayload msgs) 2 2 _ (hr 2 (by omega)),
      askLoop_step_retryable trace (mkPayload msgs) 1 3 _ (hr 3 (by omega)),
      askLoop_step_ok trace (mkPayload msgs) 0 4 _ t j (.str s) hok hext]
    refine ⟨rfl, ?_, by simp⟩
    simp [List.range_succ]

/-- Closed instance of C2: two HTTP 500 responses, then a 200 with a
well-formed body; delays 1 and 2, success text returned, three
requests. -/
theorem C2_witness :
    (ask_openrouter (some "sk-or-key") []
        (fun i => if i < 2 then .response 500 "busy" (.error "bad")
          else .response 200 "" (.ok okBody))).1 = .ok (.str "Hi there!")
    ∧ (ask_openrouter (some "sk-or-key") []
        (fun i => if i < 2 then .response 500 "busy" (.error "bad")
          else .response 200 "" (.ok okBody))).2.sleeps
        = (List.range 2).map (fun i => 2 ^ i)
    ∧ (ask_openrouter (some "sk-or-key") []
        (fun i => if i < 2 then .response 500 "busy" (.error "bad")
          else .response 200 "" (.ok okBody))).2.requests.length = 2 + 1 :=
  C2_backoff_doubles_then_success (some "sk-or-key") []
    (fun i => if i < 2 then .response 500 "busy" (.error "bad")
      else .response 200 "" (.ok okBody))
    2 "" okBody "Hi there!" rfl (by simp [maxRetries])
    (by intro i hi
        interval_cases i <;> exact ⟨"busy", .error "bad", rfl⟩)
    rfl rfl

/-- C10: when every attempt has a retryable outcome, the loop sleeps
after the final attempt as well: the run performs all five sleeps
1, 2, 4, 8, 16 — the last one with no request after it — and then returns
the max-retries message after five requests. -/
theorem C10_sleeps_include_final_backoff
    (key : Option String) (msgs : List InMsg) (trace : Nat → AttemptOutcome)
    (hkey : pyFalsy key = false)
    (hr : ∀ i, i ≤ maxRetries → isRetryable (trace i) = true) :
    (ask_openrouter key msgs trace).2.sleeps = [1, 2, 4, 8, 16]
    ∧ (ask_openrouter key msgs trace).1
        = .ok (.str "Error: Max retries exceeded. Please try again in a moment.")
    ∧ (ask_openrouter key msgs trace).2.requests.length = 5 := by
  have hr4 : ∀ i, i ≤ 4 → isRetryable (trace i) = true := by
    simpa [maxRetries] using hr
  have hrun : ask_openrouter key msgs trace
      = askLoop trace (mkPayload msgs) (4 + 1) 0 ⟨[], []⟩ := by
    simp [ask_openrouter, hkey, maxRetries]
  rw [hrun,
    askLoop_step_retryable trace (mkPayload msgs) 4 0 _ (hr4 0 (by omega)),
    askLoop_step_retryable trace (mkPayload msgs) 3 1 _ (hr4 1 (by omega)),
    askLoop_step_retryable trace (mkPayload msgs) 2 2 _ (hr4 2 (by omega)),
    askLoop_step_retryable trace (mkPayload msgs) 1 3 _ (hr4 3 (by omega)),
    askLoop_step_retryable trace (mkPayload msgs) 0 4 _ (hr4 4 (by omega))]
  refine ⟨by simp [askLoop], by simp [askLoop], by simp [askLoop]⟩

/-- Closed instance of C10: all attempts time out; the five sleeps end
with the delay 16 taken after the fifth and final request. -/
theorem C10_witness :
    (ask_openrouter (some "sk-or-key") [] (fun _ => .timeout)).2.sleeps = [1, 2, 4, 8, 16]
    ∧ (ask_openrouter (some "sk-or-key") [] (fun _ => .timeout)).1
        = .ok (.str "Error: Max retries exceeded. Please try again in a moment.")
    ∧ (ask_openrouter (some "sk-or-key") [] (fun _ => .timeout)).2.requests.length = 5 :=
  C10_sleeps_include_final_backoff (some "sk-or-key") [] (fun _ => .timeout)
    rfl (fun _ _ => rfl)

/-- C5 counterexample: in `main2.py`, a retryable outcome (here HTTP 500,
raised by `raise_for_status` as an `HTTPError`) does not lead to a wait
and a repeat — `ask_api` returns an error string immediately after its
single request, and no variant-wide retry property holds. -/
theorem C5_counterexample_ask_api_no_retry :
    ask_api (some "sk-or-key") "Hello" (.response 500 "busy" (.error "bad"))
      = (.ok (.str "Sorry, I\x27m having trouble connecting to the AI. Please try again later."),
         [[("user", "Hello")]]) := rfl

/-- C5 as amended: in `main.py`, on a retryable outcome while the attempt
counter is below `max_retries`, the client sleeps and sends the request
again (so a run whose first `k + 1` outcomes are retryable, `k <
max_retries`, has at least `k + 2` requests and `k + 1` sleeps); every
request sent in any run carries the identical payload; and when every
outcome up to the maximum is retryable the result is the
max-retries-exceeded message.  (`main2.py` has no retry loop at all, see
the counterexample.) -/
theorem C5_retry_repeats_identical_payload
    (key : Option String) (msgs : List InMsg) (trace : Nat → AttemptOutcome)
    (k : Nat) (hkey : pyFalsy key = false) (hk : k < maxRetries)
    (hr : ∀ i, i ≤ k → isRetryable (trace i) = true) :
    k + 2 ≤ (ask_openrouter key msgs trace).2.requests.length
    ∧ k + 1 ≤ (ask_openrouter key msgs trace).2.sleeps.length
    ∧ (∀ p ∈ (ask_openrouter key msgs trace).2.requests, p = mkPayload msgs)
    ∧ ((∀ i, i ≤ maxRetries → isRetryable (trace i) = true) →
        (ask_openrouter key msgs trace).1
          = .ok (.str "Error: Max retries exceeded. Please try again in a moment.")) := by
  have hrun : ask_openrouter key msgs trace
      = askLoop trace (mkPayload msgs) (4 + 1) 0 ⟨[], []⟩ := by
    simp [ask_openrouter, hkey, maxRetries]
  have hk4 : k < 4 := by simpa [maxRetries] using hk
  refine ⟨?_, ?_, ?_, ?_⟩
  · rw [hrun]
    interval_cases k
    · rw [askLoop_step_retryable trace (mkPayload msgs) 4 0 _ (hr 0 (by omega))]
      have := askLoop_sends trace (mkPayload msgs) 3 1
        ⟨[] ++ [mkPayload msgs], [] ++ [2 ^ 0]⟩
      simpa using this
    · rw [askLoop_step_retryable trace (mkPayload msgs) 4 0 _ (hr 0 (by omega)),
        askLoop_step_retryable trace (mkPayload msgs) 3 1 _ (hr 1 (by omega))]
      have := askLoop_sends trace (mkPayload msgs) 2 2
        ⟨([] ++ [mkPayload msgs]) ++ [mkPayload msgs], ([] ++ [2 ^ 0]) ++ [2 ^ 1]⟩
      simpa using this
    · rw [askLoop_step_retryable trace (mkPayload msgs) 4 0 _ (hr 0 (by omega)),
        askLoop_step_retryable trace (mkPayload msgs) 3 1 _ (hr 1 (by omega)),
        askLoop_step_retryable trace (mkPayload msgs) 2 2 _ (hr 2 (by omega))]
      have := askLoop_sends trace (mkPayload msgs) 1 3
        ⟨(([] ++ [mkPayload msgs]) ++ [mkPayload msgs]) ++ [mkPayload msgs],
         (([] ++ [2 ^ 0]) ++ [2 ^ 1]) ++ [2 ^ 2]⟩
      simpa using this
    · rw [askLoop_step_retryable trace (mkPayload msgs) 4 0 _ (hr 0 (by omega)),
        askLoop_step_retryable trace (mkPayload msgs) 3 1 _ (hr 1 (by omega)),
        askLoop_step_retryable trace (mkPayload msgs) 2 2 _ (hr 2 (by omega)),
        askLoop_step_retryable trace (mkPayload msgs) 1 3 _ (hr 3 (by omega))]
      have := askLoop_sends trace (mkPayload msgs) 0 4
        ⟨((([] ++ [mkPayload msgs]) ++ [mkPayload msgs]) ++ [mkPayload msgs]) ++ [mkPayload msgs],
         ((([] ++ [2 ^ 0]) ++ [2 ^ 1]) ++ [2 ^ 2]) ++ [2 ^ 3]⟩
      simpa using this
  · rw [hrun]
    interval_cases k
    · rw [askLoop_step_retryable trace (mkPayload msgs) 4 0 _ (hr 0 (by omega))]
      have := (askLoop_log_mono trace (mkPayload msgs) 4 1
        ⟨[] ++ [mkPayload msgs], [] ++ [2 ^ 0]⟩).2
      simpa using this
    · rw [askLoop_step_retryable trace (mkPayload msgs) 4 0 _ (hr 0 (by omega)),
        askLoop_step_retryable trace (mkPayload msgs) 3 1 _ (hr 1 (by omega))]
      have := (askLoop_log_mono trace (mkPayload msgs) 3 2
        ⟨([] ++ [mkPayload msgs]) ++ [mkPayload msgs], ([] ++ [2 ^ 0]) ++ [2 ^ 1]⟩).2
      simpa using this
    · rw [askLoop_step_retryable trace (mkPayload msgs) 4 0 _ (hr 0 (by omega)),
        askLoop_step_retryable trace (mkPayload msgs) 3 1 _ (hr 1 (by omega)),
        askLoop_step_retryable trace (mkPayload msgs) 2 2 _ (hr 2 (by omega))]
      have := (askLoop_log_mono trace (mkPayload msgs) 2 3
        ⟨(([] ++ [mkPayload msgs]) ++ [mkPayload msgs]) ++ [mkPayload msgs],
         (([] ++ [2 ^ 0]) ++ [2 ^ 1]) ++ [2 ^ 2]⟩).2
      simpa using this
    · rw [askLoop_step_retryable trace (mkPayload msgs) 4 0 _ (hr 0 (by omega)),
        askLoop_step_retryable trace (mkPayload msgs) 3 1 _ (hr 1 (by omega)),
        askLoop_step_retryable trace (mkPayload msgs) 2 2 _ (hr 2 (by omega)),
        askLoop_step_retryable trace (mkPayload msgs) 1 3 _ (hr 3 (by omega))]
      have := (askLoop_log_mono trace (mkPayload msgs) 1 4
        ⟨((([] ++ [mkPayload msgs]) ++ [mkPayload msgs]) ++ [mkPayload msgs]) ++ [mkPayload msgs],
         ((([] ++ [2 ^ 0]) ++ [2 ^ 1]) ++ [2 ^ 2]) ++ [2 ^ 3]⟩).2
      simpa using this
  · rw [hrun]
    exact askLoop_requests_eq trace (mkPayload msgs) (4 + 1) 0 ⟨[], []⟩ (by simp)
  · intro hall
    have hall4 : ∀ i, i ≤ 4 → isRetryable (trace i) = true := by
      simpa [maxRetries] using hall
    rw [hrun,
      askLoop_step_retryable trace (mkPayload msgs) 4 0 _ (hall4 0 (by omega)),
      askLoop_step_retryable trace (mkPayload msgs) 3 1 _ (hall4 1 (by omega)),
      askLoop_step_retryable trace (mkPayload msgs) 2 2 _ (hall4 2 (by omega)),
      askLoop_step_retryable trace (mkPayload msgs) 1 3 _ (hall4 3 (by omega)),
      askLoop_step_retryable trace (mkPayload msgs) 0 4 _ (hall4 4 (by omega))]
    simp [askLoop]

/-- Closed instance of the amended C5: the first two outcomes are a
timeout and a connection error, the rest time out as well. -/
theorem C5_witness :
    1 + 2 ≤ (ask_openrouter (some "sk-or-key") []
        (fun i => if i = 1 then .connectionError else .timeout)).2.requests.length
    ∧ 1 + 1 ≤ (ask_openrouter (some "sk-or-key") []
        (fun i => if i = 1 then .connectionError else .timeout)).2.sleeps.length
    ∧ (∀ p ∈ (ask_openrouter (some "sk-or-key") []
        (fun i => if i = 1 then .connectionError else .timeout)).2.requests, p = mkPayload [])
    ∧ ((∀ i, i ≤ maxRetries → isRetryable
          ((fun i => if i = 1 then .connectionError else .timeout) i) = true) →
        (ask_openrouter (some "sk-or-key") []
          (fun i => if i = 1 then .connectionError else .timeout)).1
          = .ok (.str "Error: Max retries exceeded. Please try again in a moment.")) :=
  C5_retry_repeats_identical_payload (some "sk-or-key") []
    (fun i => if i = 1 then .connectionError else .timeout) 1
    rfl (by simp [maxRetries])
    (by intro i hi; interval_cases i <;> rfl)

/-- C6 counterexample: `main.py` has no decode-error case distinct from
the generic unexpected-error case.  A 200 response whose body fails to
decode produces exactly the value of the `except Exception` branch — the
same result as a generic non-decode exception carrying the same message —
namely the `Unexpected error:` string. -/
theorem C6_counterexample_no_distinct_decode_error :
    (ask_openrouter (some "sk-or-key") []
        (fun _ => .response 200 "oops" (.error "Expecting value"))).1
      = (ask_openrouter (some "sk-or-key") []
        (fun _ => .raised false "Expecting value")).1
    ∧ (ask_openrouter (some "sk-or-key") []
        (fun _ => .response 200 "oops" (.error "Expecting value"))).1
      = .ok (.str "Unexpected error: Expecting value") :=
  ⟨rfl, rfl⟩

/-- C6 as amended: a 200 response with an undecodable body is
non-retryable — `ask_openrouter` returns after that single request, with
no sleep — but the value returned is the generic
`Unexpected error: ...` string of the `except Exception` branch; the code
has no decode-error case distinct from the unexpected-error case. -/
theorem C6_malformed_json_is_unexpected_error
    (key : Option String) (msgs : List InMsg) (trace : Nat → AttemptOutcome)
    (t m : String) (hkey : pyFalsy key = false)
    (htr : trace 0 = .response 200 t (.error m)) :
    (ask_openrouter key msgs trace).1 = .ok (.str ("Unexpected error: " ++ m))
    ∧ (ask_openrouter key msgs trace).2.requests.length = 1
    ∧ (ask_openrouter key msgs trace).2.sleeps = [] := by
  have hrun : ask_openrouter key msgs trace
      = askLoop trace (mkPayload msgs) (4 + 1) 0 ⟨[], []⟩ := by
    simp [ask_openrouter, hkey, maxRetries]
  rw [hrun]
  refine ⟨?_, ?_, ?_⟩ <;> simp [askLoop, htr]

/-- Closed instance of the amended C6. -/
theorem C6_witness :
    (ask_openrouter (some "sk-or-key") []
        (fun _ => .response 200 "oops" (.error "Expecting value"))).1
      = .ok (.str ("Unexpected error: " ++ "Expecting value"))
    ∧ (ask_openrouter (some "sk-or-key") []
        (fun _ => .response 200 "oops" (.error "Expecting value"))).2.requests.length = 1
    ∧ (ask_openrouter (some "sk-or-key") []
        (fun _ => .response 200 "oops" (.error "Expecting value"))).2.sleeps = [] :=
  C6_malformed_json_is_unexpected_error (some "sk-or-key") []
    (fun _ => .response 200 "oops" (.error "Expecting value"))
    "oops" "Expecting value" rfl rfl

/-- C7 counterexample: `ask_api` in `main2.py` lets an exception escape.
On a 200 response whose body is `{"choices": []}`,
`result["choices"][0]` raises `IndexError`, which neither
`except requests.exceptions.RequestException` nor `except KeyError`
catches, so the exception propagates to the caller instead of being
resolved to a string. -/
theorem C7_counterexample_ask_api_raises :
    ask_api (some "sk-or-key") "Hello"
        (.response 200 "" (.ok emptyChoicesBody))
      = (.error .indexError, [[("user", "Hello")]]) := rfl

/-- C7 as amended: `ask_openrouter` in `main.py` resolves every input and
every outcome of the remote call to a returned value — no exception ever
propagates past it (every error path yields a string).  `ask_api` in
`main2.py` does not have this property, see the counterexample. -/
theorem C7_ask_openrouter_never_raises
    (key : Option String) (msgs : List InMsg) (trace : Nat → AttemptOutcome) :
    ∃ v, (ask_openrouter key msgs trace).1 = .ok v := by
  by_cases hkey : pyFalsy key
  · exact ⟨.str "Error: Missing OpenRouter API key. Add it via the API Settings panel.",
      by simp [ask_openrouter, hkey]⟩
  · obtain ⟨v, hv⟩ := askLoop_total trace (mkPayload msgs) (maxRetries + 1) 0 ⟨[], []⟩
    exact ⟨v, by simpa [ask_openrouter, hkey] using hv⟩

/-- C8: every request sent by `ask_openrouter` carries exactly the
conversation reduced to its role/content pairs, in the original order —
one pair per input message, none dropped, duplicated or reordered. -/
theorem C8_payload_preserves_conversation
    (key : Option String) (msgs : List InMsg) (trace : Nat → AttemptOutcome)
    (p : Payload) (hp : p ∈ (ask_openrouter key msgs trace).2.requests) :
    p.messages = msgs.map (fun m => (m.role, m.content))
    ∧ p.messages.length = msgs.length := by
  by_cases hkey : pyFalsy key
  · simp [ask_openrouter, hkey] at hp
  · have hrun : ask_openrouter key msgs trace
        = askLoop trace (mkPayload msgs) (maxRetries + 1) 0 ⟨[], []⟩ := by
      simp [ask_openrouter, hkey]
    rw [hrun] at hp
    have hpay := askLoop_requests_eq trace (mkPayload msgs) (maxRetries + 1) 0
      ⟨[], []⟩ (by simp) p hp
    subst hpay
    simp [mkPayload]

/-- Closed instance of C8: the two-message conversation of the spec's
concrete scenario, a successful run, and the payload it sent. -/
theorem C8_witness :
    (mkPayload [⟨"system", "You are helpful"⟩, ⟨"user", "Hello"⟩]).messages
      = [⟨"system", "You are helpful"⟩, ⟨"user", "Hello"⟩].map
          (fun m : InMsg => (m.role, m.content))
    ∧ (mkPayload [⟨"system", "You are helpful"⟩, ⟨"user", "Hello"⟩]).messages.length
      = ([⟨"system", "You are helpful"⟩, ⟨"user", "Hello"⟩] : List InMsg).length :=
  C8_payload_preserves_conversation (some "sk-or-key")
    [⟨"system", "You are helpful"⟩, ⟨"user", "Hello"⟩]
    (fun _ => .response 200 "" (.ok okBody))
    (mkPayload [⟨"system", "You are helpful"⟩, ⟨"user", "Hello"⟩])
    (by decide)

/-- C9: a 200 response with valid JSON whose structure defeats the
extraction — an empty choices list, or missing message/content keys —
makes `ask_openrouter` return the UnexpectedError-branch string after
that single request, rather than raising to the caller. -/
theorem C9_degenerate_choices_error_string
    (key : Option String) (msgs : List InMsg) (trace : Nat → AttemptOutcome)
    (t : String) (j : Json) (e : PyExn) (hkey : pyFalsy key = false)
    (htr : trace 0 = .response 200 t (.ok j))
    (hext : extractContent j = .error e) :
    (ask_openrouter key msgs trace).1
        = .ok (.str ("Unexpected error: " ++ pyExnMsg e))
    ∧ (ask_openrouter key msgs trace).2.requests.length = 1 := by
  have hrun : ask_openrouter key msgs trace
      = askLoop trace (mkPayload msgs) (4 + 1) 0 ⟨[], []⟩ := by
    simp [ask_openrouter, hkey, maxRetries]
  rw [hrun]
  refine ⟨?_, ?_⟩ <;> simp [askLoop, htr, hext]

/-- Closed instance of C9: the empty choices list. -/
theorem C9_witness :
    (ask_openrouter (some "sk-or-key") []
        (fun _ => .response 200 "" (.ok emptyChoicesBody))).1
      = .ok (.str ("Unexpected error: " ++ pyExnMsg .indexError))
    ∧ (ask_openrouter (some "sk-or-key") []
        (fun _ => .response 200 "" (.ok emptyChoicesBody))).2.requests.length = 1 :=
  C9_degenerate_choices_error_string (some "sk-or-key") []
    (fun _ => .response 200 "" (.ok emptyChoicesBody))
    "" emptyChoicesBody .indexError rfl rfl rfl
